import Mathlib

/-!
Shallow embedding of the `lisp_lang` evaluation core
(`src/lisp_lang/src/parsing/mod.rs`, `src/lisp_lang/src/convert.rs`,
`src/lisp_lang/src/evaluation/{mod.rs,scope.rs,error.rs}`).

Rust `i64` is modelled by `Int` (no claim under scrutiny exercises
overflow); a Rust panic (a `.unwrap()` on `None`, an out-of-range slice, a
division or modulo by zero) is modelled by the dedicated outcome
`Res.panic`, since it aborts the process rather than returning an error
value.  The Rust evaluator recurses without bound, so the embedding
threads an explicit fuel counter through `eval`; every other function is
parameterised by the recursive call (`recur`), exactly mirroring which
source functions re-enter `eval`.
-/

set_option maxRecDepth 4000

namespace Lisp

/-- The `LispType` kind tags from `parsing/mod.rs`. -/
inductive LispType where
  | Any
  | Symbol
  | String
  | List
  | Number
  | Boolean
  | Function
  | Void
deriving Repr, DecidableEq

/-- Abbreviation for the host string type, usable inside the `LispVal`
namespace where the bare name `String` would resolve to the constructor. -/
abbrev Str : Type := String

/-- The `LispVal` value/AST type from `parsing/mod.rs`. -/
inductive LispVal where
  | Symbol (s : String)
  | String (s : String)
  | List (xs : List LispVal)
  | Number (n : Int)
  | Boolean (b : Bool)
  | Unevaluated (v : LispVal)
  | Function (parameters : List String) (body : LispVal) (applied : List LispVal)
  | Void
deriving Repr

/-- `LispValUnwrapError` from `parsing/error.rs`: a failed coercion. -/
structure LispValUnwrapError where
  expected : LispType
  got : LispType
deriving Repr, DecidableEq

/-- `LispVal::to_type` from `parsing/mod.rs`. -/
def LispVal.to_type : LispVal → LispType
  | .Void => .Void
  | .Symbol _ => .Symbol
  | .Number _ => .Number
  | .String _ => .String
  | .List _ => .List
  | .Boolean _ => .Boolean
  | .Function _ _ _ => .Function
  | .Unevaluated v => v.to_type

/-- `LispVal::as_symbol` from `parsing/mod.rs`. -/
def LispVal.as_symbol : LispVal → Except LispValUnwrapError Str
  | .Symbol s => .ok s
  | v => .error ⟨.Symbol, v.to_type⟩

/-- `TryFrom<LispVal> for i64` from `convert.rs`. -/
def tryIntoInt : LispVal → Except LispValUnwrapError Int
  | .Number n => .ok n
  | v => .error ⟨.Number, v.to_type⟩

/-- `TryFrom<LispVal> for bool` from `convert.rs`. -/
def tryIntoBool : LispVal → Except LispValUnwrapError Bool
  | .Boolean b => .ok b
  | v => .error ⟨.Boolean, v.to_type⟩

/-- `TryFrom<LispVal> for String` from `convert.rs`. -/
def tryIntoString : LispVal → Except LispValUnwrapError String
  | .String s => .ok s
  | v => .error ⟨.String, v.to_type⟩

/-- `TryFrom<LispVal> for Vec<LispVal>` from `convert.rs`. -/
def tryIntoList : LispVal → Except LispValUnwrapError (List LispVal)
  | .List xs => .ok xs
  | v => .error ⟨.List, v.to_type⟩

/-- `LispVal::concat` from `parsing/mod.rs` (match arms in source order). -/
def LispVal.concat : LispVal → LispVal → LispVal
  | .List left, .List right => .List (left ++ right)
  | .List left, v => .List (left ++ [v])
  | v, .List right => .List (v :: right)
  | l, r => .List [l, r]

/-- `Scope` from `evaluation/scope.rs`.  The persistent `im::HashMap` is
modelled as an association list where `bind` prepends and `get` returns
the most recent entry, which gives the same lookup/shadowing behaviour. -/
structure Scope where
  context : String
  bindings : List (String × LispVal)
deriving Repr

/-- `Scope::empty` from `evaluation/scope.rs`. -/
def Scope.empty (context : String) : Scope := ⟨context, []⟩

/-- `Scope::with_context` from `evaluation/scope.rs`. -/
def Scope.with_context (s : Scope) (context : String) : Scope :=
  ⟨context, s.bindings⟩

/-- `Scope::bind` from `evaluation/scope.rs`. -/
def Scope.bind (s : Scope) (name : String) (value : LispVal) : Scope :=
  ⟨s.context, (name, value) :: s.bindings⟩

/-- `Scope::get` from `evaluation/scope.rs`. -/
def Scope.get (s : Scope) (name : String) : Option LispVal :=
  (s.bindings.find? (fun p => p.1 == name)).map (fun p => p.2)

/-- `MAIN_CONTEXT` from `evaluation/scope.rs`. -/
def MAIN_CONTEXT : String := "main"

/-- `INITIAL_SCOPE` from `evaluation/scope.rs`: the `lisp_scope!` macro
binds `MAX_INT` first, then `MIN_INT`, starting from the empty `main`
scope. -/
def INITIAL_SCOPE : Scope :=
  ((Scope.empty MAIN_CONTEXT).bind "MAX_INT" (.Number (2 ^ 63 - 1))).bind
    "MIN_INT" (.Number (-(2 ^ 63)))

/-- `EvalError` from `evaluation/error.rs`. -/
inductive EvalError where
  | InvalidArgumentType (name : String) (expected : LispType) (got : LispType)
      (position : Nat)
  | InvalidConcatenation (left right : LispType)
  | InvalidFunctionCall (values : List LispVal)
  | UnknownIdentifier (name : String)
deriving Repr

/-- `EvalError::from_arg` from `evaluation/error.rs`. -/
def EvalError.from_arg (position : Nat) (name : String)
    (e : LispValUnwrapError) : EvalError :=
  .InvalidArgumentType name e.expected e.got position

/-- `LispVal::is_macro` from `parsing/mod.rs` reduced to its only use:
`name.ends_with("!")` for the one-character suffix `!`, i.e. the last
character of the name is `!`. -/
def endsWithBang (s : String) : Bool :=
  match s.data.getLast? with
  | some c => c == '!'
  | none => false

/-- Outcome of evaluation: `Ok((scope, value))`, `Err(e)`, a Rust panic
(process abort), or fuel exhaustion (`out`, the embedding's stand-in for
non-termination). -/
inductive Res (α : Type) where
  | ok (scope : Scope) (a : α)
  | err (e : EvalError)
  | panic
  | out
deriving Repr

/-- The shape of the evaluator's recursive entry point, which the helper
functions below receive as a parameter (mirroring their calls back into
`eval` in `evaluation/mod.rs`). -/
abbrev Recur : Type := Scope → LispVal → Res LispVal

/-- `eval_op1` from `evaluation/mod.rs`: coerce argument 0, apply the
operation.  The missing-argument `unwrap` is a panic; an operation that
itself panics (e.g. `head` on an empty list) returns `none`. -/
def eval_op1 {A : Type} (c1 : LispVal → Except LispValUnwrapError A)
    (operation : A → Option LispVal) (scope : Scope) (values : List LispVal) :
    Res LispVal :=
  let name := scope.context
  match values.get? 0 with
  | none => .panic
  | some v0 =>
    match c1 v0 with
    | .error e => .err (EvalError.from_arg 0 name e)
    | .ok a1 =>
      match operation a1 with
      | none => .panic
      | some r => .ok scope r

/-- `eval_op2` from `evaluation/mod.rs`: coerce arguments 0 and 1 in
order, apply the operation (`none` models a panicking operation such as
division by zero). -/
def eval_op2 {A B : Type} (c1 : LispVal → Except LispValUnwrapError A)
    (c2 : LispVal → Except LispValUnwrapError B)
    (operation : A → B → Option LispVal) (scope : Scope)
    (values : List LispVal) : Res LispVal :=
  let name := scope.context
  match values.get? 0 with
  | none => .panic
  | some v0 =>
    match c1 v0 with
    | .error e => .err (EvalError.from_arg 0 name e)
    | .ok a1 =>
      match values.get? 1 with
      | none => .panic
      | some v1 =>
        match c2 v1 with
        | .error e => .err (EvalError.from_arg 1 name e)
        | .ok a2 =>
          match operation a1 a2 with
          | none => .panic
          | some r => .ok scope r

/-- `eval_unevaluated` from `evaluation/mod.rs` (the `eval` native). -/
def eval_unevaluated (recur : Recur) (scope : Scope) (values : List LispVal) :
    Res LispVal :=
  match values.get? 0 with
  | none => .panic
  | some v => recur scope v

/-- The `try_fold` loop inside `eval_fold` from `evaluation/mod.rs`. -/
def fold_steps (recur : Recur) : Scope → LispVal → LispVal → List LispVal →
    Res LispVal
  | scope, _, acc, [] => .ok scope acc
  | scope, operation, acc, v :: rest =>
    match recur scope (.List [operation, acc, v]) with
    | .ok s r => fold_steps recur s operation r rest
    | .err e => .err e
    | .panic => .panic
    | .out => .out

/-- `eval_fold` from `evaluation/mod.rs`.  The list-coercion failure is
reported at position 1, exactly as in the source. -/
def eval_fold (recur : Recur) (scope : Scope) (values : List LispVal) :
    Res LispVal :=
  let name := scope.context
  match values.get? 0 with
  | none => .panic
  | some operation =>
    match values.get? 1 with
    | none => .panic
    | some initial =>
      match values.get? 2 with
      | none => .panic
      | some lv =>
        match tryIntoList lv with
        | .error e => .err (EvalError.from_arg 1 name e)
        | .ok list => fold_steps recur scope operation initial list

/-- The `try_fold` loop inside `eval_map` from `evaluation/mod.rs`. -/
def map_steps (recur : Recur) : Scope → LispVal → List LispVal →
    Res (List LispVal)
  | scope, _, [] => .ok scope []
  | scope, operation, v :: rest =>
    match recur scope (.List [operation, v]) with
    | .ok s r =>
      match map_steps recur s operation rest with
      | .ok s2 acc => .ok s2 (r :: acc)
      | .err e => .err e
      | .panic => .panic
      | .out => .out
    | .err e => .err e
    | .panic => .panic
    | .out => .out

/-- `eval_map` from `evaluation/mod.rs`. -/
def eval_map (recur : Recur) (scope : Scope) (values : List LispVal) :
    Res LispVal :=
  let name := scope.context
  match values.get? 0 with
  | none => .panic
  | some operation =>
    match values.get? 1 with
    | none => .panic
    | some lv =>
      match tryIntoList lv with
      | .error e => .err (EvalError.from_arg 1 name e)
      | .ok list =>
        match map_steps recur scope operation list with
        | .ok s rs => .ok s (.List rs)
        | .err e => .err e
        | .panic => .panic
        | .out => .out

/-- `eval_if` from `evaluation/mod.rs`: evaluates the condition only, then
exactly one branch. -/
def eval_if (recur : Recur) (scope : Scope) (values : List LispVal) :
    Res LispVal :=
  let name := scope.context
  match values.get? 0 with
  | none => .panic
  | some c =>
    match recur scope c with
    | .ok s cv =>
      match tryIntoBool cv with
      | .error e => .err (EvalError.from_arg 0 name e)
      | .ok condition =>
        if condition then
          match values.get? 1 with
          | none => .panic
          | some t => recur s t
        else
          match values.get? 2 with
          | none => .panic
          | some f => recur s f
    | .err e => .err e
    | .panic => .panic
    | .out => .out

/-- `eval_concat` from `evaluation/mod.rs`: re-evaluates both argument
values, threading the scope, then applies `LispVal::concat`. -/
def eval_concat (recur : Recur) (scope : Scope) (values : List LispVal) :
    Res LispVal :=
  match values.get? 0 with
  | none => .panic
  | some a =>
    match recur scope a with
    | .ok s1 left =>
      match values.get? 1 with
      | none => .panic
      | some b =>
        match recur s1 b with
        | .ok s2 right => .ok s2 (left.concat right)
        | .err e => .err e
        | .panic => .panic
        | .out => .out
    | .err e => .err e
    | .panic => .panic
    | .out => .out

/-- `eval_value_definition` from `evaluation/mod.rs` (the `def!` native):
binds the raw second argument (it is *not* evaluated). -/
def eval_value_definition (scope : Scope) (values : List LispVal) :
    Res LispVal :=
  let name := scope.context
  match values.get? 0 with
  | none => .panic
  | some v0 =>
    match v0.as_symbol with
    | .error e => .err (EvalError.from_arg 0 name e)
    | .ok n =>
      match values.get? 1 with
      | none => .panic
      | some value => .ok (scope.bind n value) .Void

/-- `eval_push` from `evaluation/mod.rs`. -/
def eval_push (scope : Scope) (values : List LispVal) : Res LispVal :=
  let name := scope.context
  match values.get? 0 with
  | none => .panic
  | some v0 =>
    match tryIntoList v0 with
    | .error e => .err (EvalError.from_arg 0 name e)
    | .ok list =>
      match values.get? 1 with
      | none => .panic
      | some value => .ok scope (.List (list ++ [value]))

/-- The parameter-name collection loop inside `eval_function_value`: each
non-symbol parameter fails at position 1, as in the source. -/
def collect_symbols (name : String) : List LispVal →
    Except EvalError (List String)
  | [] => .ok []
  | v :: rest =>
    match v.as_symbol with
    | .error e => .error (EvalError.from_arg 1 name e)
    | .ok s =>
      match collect_symbols name rest with
      | .error er => .error er
      | .ok ss => .ok (s :: ss)

/-- `eval_function_value` from `evaluation/mod.rs` (the `fn!` native). -/
def eval_function_value (scope : Scope) (values : List LispVal) :
    Res LispVal :=
  let name := scope.context
  match values.get? 0 with
  | none => .panic
  | some v0 =>
    match tryIntoList v0 with
    | .error e => .err (EvalError.from_arg 0 name e)
    | .ok args_values =>
      match values.get? 1 with
      | none => .panic
      | some body =>
        match collect_symbols name args_values with
        | .error er => .err er
        | .ok args => .ok scope (.Function args body [])

/-- `eval_function_definition` from `evaluation/mod.rs` (the `defn!`
native). -/
def eval_function_definition (scope : Scope) (values : List LispVal) :
    Res LispVal :=
  let name := scope.context
  match values.get? 0 with
  | none => .panic
  | some v0 =>
    match v0.as_symbol with
    | .error e => .err (EvalError.from_arg 0 name e)
    | .ok function_name =>
      match eval_function_value scope (values.drop 1) with
      | .ok s f => .ok (s.bind function_name f) .Void
      | .err e => .err e
      | .panic => .panic
      | .out => .out

/-- `eval_debug` from `evaluation/mod.rs` (printing ignored). -/
def eval_debug (scope : Scope) (values : List LispVal) : Res LispVal :=
  match values.get? 0 with
  | none => .panic
  | some v => .ok scope v

/-- `NativeFunction::to_function` from `evaluation/mod.rs`: the synthetic
curried wrapper for an under-saturated native, with generated parameter
names `a0`, `a1`, … and a body that re-invokes the primitive by name. -/
def to_function (required : Nat) (name : String) (applied : List LispVal) :
    LispVal :=
  let args := (List.range required).map (fun n => "a" ++ toString n)
  .Function args (.List ((name :: args).map LispVal.Symbol)) applied

/-- The required-arity column of `INTERNAL_SYMBOLS_TABLE` from
`evaluation/mod.rs`; `none` for names not in the table. -/
def nativeArity : String → Option Nat
  | "eval" => some 1
  | "print" => some 1
  | "debug" => some 1
  | "to_string" => some 1
  | "fold" => some 3
  | "map" => some 2
  | "concat" => some 2
  | "push" => some 2
  | "fn!" => some 2
  | "def!" => some 2
  | "defn!" => some 3
  | "print_scope" => some 0
  | "clear_scope" => some 0
  | "head" => some 1
  | "tail" => some 1
  | "len" => some 1
  | "if!" => some 3
  | "+" | "-" | "*" | "/" | "%" => some 2
  | "add" | "sub" | "mul" | "div" | "mod" | "max" | "min" => some 2
  | "<" | ">" | "<=" | ">=" | "=" => some 2
  | "lt" | "gt" | "ltq" | "gtq" | "eq" => some 2
  | "and" | "or" => some 2
  | "not" => some 1
  | _ => none

/-- The implementation column of `INTERNAL_SYMBOLS_TABLE` from
`evaluation/mod.rs`.  Rust `i64` division/remainder (`/`, `%`) panic on a
zero divisor and otherwise truncate toward zero (`Int.tdiv`/`Int.tmod`);
`head` panics on an empty list (`.get(0).unwrap()`), `tail` panics on an
empty list (the slice `l[1..]`).  The catch-all arm is unreachable from
`eval_list`, which consults `nativeArity` first. -/
def apply_native (recur : Recur) (atom : String) (scope : Scope)
    (values : List LispVal) : Res LispVal :=
  match atom with
  | "eval" => eval_unevaluated recur scope values
  | "print" => eval_op1 tryIntoString (fun _ => some .Void) scope values
  | "debug" => eval_debug scope values
  | "to_string" =>
    eval_op1 tryIntoInt (fun n => some (.String (toString n))) scope values
  | "fold" => eval_fold recur scope values
  | "map" => eval_map recur scope values
  | "concat" => eval_concat recur scope values
  | "push" => eval_push scope values
  | "fn!" => eval_function_value scope values
  | "def!" => eval_value_definition scope values
  | "defn!" => eval_function_definition scope values
  | "print_scope" => .ok scope .Void
  | "clear_scope" => .ok INITIAL_SCOPE .Void
  | "head" => eval_op1 tryIntoList (fun l => l.get? 0) scope values
  | "tail" =>
    eval_op1 tryIntoList
      (fun l => match l with | [] => none | _ :: t => some (.List t)) scope
      values
  | "len" =>
    eval_op1 tryIntoList (fun l => some (.Number (l.length : Int))) scope
      values
  | "if!" => eval_if recur scope values
  | "+" | "add" =>
    eval_op2 tryIntoInt tryIntoInt (fun a b => some (.Number (a + b))) scope
      values
  | "-" | "sub" =>
    eval_op2 tryIntoInt tryIntoInt (fun a b => some (.Number (a - b))) scope
      values
  | "*" | "mul" =>
    eval_op2 tryIntoInt tryIntoInt (fun a b => some (.Number (a * b))) scope
      values
  | "/" | "div" =>
    eval_op2 tryIntoInt tryIntoInt
      (fun a b => if b = 0 then none else some (.Number (a.tdiv b))) scope
      values
  | "%" | "mod" =>
    eval_op2 tryIntoInt tryIntoInt
      (fun a b => if b = 0 then none else some (.Number (a.tmod b))) scope
      values
  | "max" =>
    eval_op2 tryIntoInt tryIntoInt (fun a b => some (.Number (max a b))) scope
      values
  | "min" =>
    eval_op2 tryIntoInt tryIntoInt (fun a b => some (.Number (min a b))) scope
      values
  | "<" | "lt" =>
    eval_op2 tryIntoInt tryIntoInt
      (fun a b => some (.Boolean (decide (a < b)))) scope values
  | ">" | "gt" =>
    eval_op2 tryIntoInt tryIntoInt
      (fun a b => some (.Boolean (decide (a > b)))) scope values
  | "<=" | "ltq" =>
    eval_op2 tryIntoInt tryIntoInt
      (fun a b => some (.Boolean (decide (a <= b)))) scope values
  | ">=" | "gtq" =>
    eval_op2 tryIntoInt tryIntoInt
      (fun a b => some (.Boolean (decide (a >= b)))) scope values
  | "=" | "eq" =>
    eval_op2 tryIntoInt tryIntoInt
      (fun a b => some (.Boolean (decide (a = b)))) scope values
  | "and" =>
    eval_op2 tryIntoBool tryIntoBool (fun a b => some (.Boolean (a && b)))
      scope values
  | "or" =>
    eval_op2 tryIntoBool tryIntoBool (fun a b => some (.Boolean (a || b)))
      scope values
  | "not" => eval_op1 tryIntoBool (fun a => some (.Boolean (!a))) scope values
  | _ => .panic

/-- `eval_function` from `evaluation/mod.rs`: curry when under-saturated,
otherwise bind `parameters.zip(arguments)` over the call-time scope,
evaluate the body there, and return the body's result paired with the
*original* scope. -/
def eval_function (recur : Recur) (scope : Scope) (parameters : List String)
    (body : LispVal) (arguments : List LispVal) : Res LispVal :=
  if arguments.length < parameters.length then
    .ok scope (.Function parameters body arguments)
  else
    let scope2 :=
      (parameters.zip arguments).foldl (fun s pv => s.bind pv.1 pv.2) scope
    match recur scope2 body with
    | .ok _ result => .ok scope result
    | .err e => .err e
    | .panic => .panic
    | .out => .out

/-- `eval_tail` from `evaluation/mod.rs`: evaluate the elements left to
right, threading the scope (the scope produced by element *i* is the input
for element *i+1*). -/
def eval_tail (recur : Recur) : Scope → List LispVal → Res (List LispVal)
  | scope, [] => .ok scope []
  | scope, v :: rest =>
    match recur scope v with
    | .ok s r =>
      match eval_tail recur s rest with
      | .ok s2 acc => .ok s2 (r :: acc)
      | .err e => .err e
      | .panic => .panic
      | .out => .out
    | .err e => .err e
    | .panic => .panic
    | .out => .out

/-- `eval_list` from `evaluation/mod.rs`.  Note that a `Symbol` head whose
name ends in `!` receives its tail unevaluated, the `list` check happens
after tail evaluation, a `Function` head receives its tail *raw*, and a
head of any other kind (including an unevaluated nested list) is an
`InvalidFunctionCall`. -/
def eval_list (recur : Recur) (scope : Scope) (values : List LispVal) :
    Res LispVal :=
  match values with
  | [] => .ok scope (.List [])
  | head :: tl =>
    match head with
    | .Symbol atom =>
      let scope1 := scope.with_context atom
      let evaluated : Res (List LispVal) :=
        if endsWithBang atom then .ok scope1 tl else eval_tail recur scope1 tl
      match evaluated with
      | .ok scope2 tailVals =>
        if atom == "list" then .ok scope2 (.List tailVals)
        else
          match nativeArity atom with
          | some required =>
            if tailVals.length < required then
              .ok scope2 (to_function required scope2.context tailVals)
            else apply_native recur atom scope2 tailVals
          | none =>
            match scope2.get atom with
            | some (.Function p b a) =>
              eval_function recur scope2 p b (a ++ tailVals)
            | some _ => .err (.InvalidFunctionCall values)
            | none => .err (.UnknownIdentifier atom)
      | .err e => .err e
      | .panic => .panic
      | .out => .out
    | .Function p b a =>
      eval_function recur (scope.with_context "anonymous") p b (a ++ tl)
    | _ => .err (.InvalidFunctionCall values)

/-- `eval` from `evaluation/mod.rs`, with a fuel counter bounding the
recursion depth; `Res.out` is returned only when the fuel runs out. -/
def eval : Nat → Scope → LispVal → Res LispVal
  | 0, _, _ => .out
  | fuel + 1, scope, expr =>
    match expr with
    | .Symbol atom =>
      match scope.get atom with
      | some value => .ok scope value
      | none => .err (.UnknownIdentifier atom)
    | .List elements => eval_list (fun s e => eval fuel s e) scope elements
    | .Unevaluated v => .ok scope v
    | _ => .ok scope expr

/-! ## General lemmas about the embedded evaluator -/

/-- Zipping against a list truncated to the left list's length changes
nothing: `List.zip` already truncates to the shorter list. -/
theorem zip_take_len {α β : Type} :
    ∀ (p : List α) (a : List β), p.zip (a.take p.length) = p.zip a
  | [], _ => by simp
  | _ :: _, [] => by simp
  | x :: p, y :: a => by
    simp only [List.length_cons, List.take_succ_cons, List.zip_cons_cons]
    rw [zip_take_len p a]

/-! ## Claims -/

/-- Claim C1: an application of a callable whose already-applied values
plus new arguments fall short of the parameter count returns a curried
`Function` (same parameters and body, `applied` extended, scope
unchanged), without evaluating the body; concretely, `(+ 3)` yields a
partially-applied `Function` with one applied slot, applying it to `4`
yields `Number 7`, and the same two-step sequence yields `Number 7` for a
user-defined 2-parameter function built with `fn!`. -/
theorem claim1_currying :
    (∀ (recur : Recur) (scope : Scope) (p : List String) (b : LispVal)
        (args : List LispVal), args.length < p.length →
        eval_function recur scope p b args = .ok scope (.Function p b args))
    ∧ Lisp.eval 20 INITIAL_SCOPE (.List [.Symbol "+", .Number 3])
        = .ok (INITIAL_SCOPE.with_context "+")
            (.Function ["a0", "a1"]
              (.List [.Symbol "+", .Symbol "a0", .Symbol "a1"]) [.Number 3])
    ∧ Lisp.eval 20 (INITIAL_SCOPE.with_context "+")
        (.List [.Function ["a0", "a1"]
            (.List [.Symbol "+", .Symbol "a0", .Symbol "a1"]) [.Number 3],
          .Number 4])
        = .ok ((INITIAL_SCOPE.with_context "+").with_context "anonymous")
            (.Number 7)
    ∧ Lisp.eval 20 INITIAL_SCOPE
        (.List [.Symbol "fn!", .List [.Symbol "a", .Symbol "b"],
          .List [.Symbol "+", .Symbol "a", .Symbol "b"]])
        = .ok (INITIAL_SCOPE.with_context "fn!")
            (.Function ["a", "b"]
              (.List [.Symbol "+", .Symbol "a", .Symbol "b"]) [])
    ∧ Lisp.eval 20 (INITIAL_SCOPE.with_context "fn!")
        (.List [.Function ["a", "b"]
            (.List [.Symbol "+", .Symbol "a", .Symbol "b"]) [], .Number 3])
        = .ok ((INITIAL_SCOPE.with_context "fn!").with_context "anonymous")
            (.Function ["a", "b"]
              (.List [.Symbol "+", .Symbol "a", .Symbol "b"]) [.Number 3])
    ∧ Lisp.eval 20 ((INITIAL_SCOPE.with_context "fn!").with_context "anonymous")
        (.List [.Function ["a", "b"]
            (.List [.Symbol "+", .Symbol "a", .Symbol "b"]) [.Number 3],
          .Number 4])
        = .ok (((INITIAL_SCOPE.with_context "fn!").with_context
              "anonymous").with_context "anonymous")
            (.Number 7) := by
  refine ⟨fun recur scope p b args h => ?_, rfl, rfl, rfl, rfl, rfl⟩
  unfold eval_function
  rw [if_pos h]

/-- Witness for C1: the currying branch at a concrete under-saturated
input. -/
theorem claim1_currying_witness :
    eval_function (fun _ _ => (Res.out : Res LispVal)) (Scope.empty "w")
        ["x", "y"] .Void [.Number 1]
      = .ok (Scope.empty "w") (.Function ["x", "y"] .Void [.Number 1]) :=
  claim1_currying.1 _ _ _ _ _ (by decide)

/-- Claim C2 (counterexample): the spec's own concrete program
`((fn! (a) (def! y a)) 5)` does not perform a saturated application at
all — `eval_list` never evaluates a compound head, so the form fails with
`InvalidFunctionCall`. -/
theorem claim2_counterexample :
    Lisp.eval 20 INITIAL_SCOPE
        (.List [.List [.Symbol "fn!", .List [.Symbol "a"],
            .List [.Symbol "def!", .Symbol "y", .Symbol "a"]], .Number 5])
      = .err (.InvalidFunctionCall
          [.List [.Symbol "fn!", .List [.Symbol "a"],
            .List [.Symbol "def!", .Symbol "y", .Symbol "a"]], .Number 5]) :=
  rfl

/-- Claim C2 (amended): a saturated application evaluates the body in the
call-time scope extended by binding `parameters.zip(arguments)` in order,
and returns the body's result paired with the *original* caller scope, so
no binding made during the body (the parameters included) survives; the
leak-freedom is exhibited by `(list (defn! f (a) (def! y a)) (f 5))`,
after which `y` is absent from the returned scope and looking it up fails
with `UnknownIdentifier`. -/
theorem claim2_call_scope_isolation :
    (∀ (recur : Recur) (scope : Scope) (p : List String) (b : LispVal)
        (args : List LispVal), p.length ≤ args.length →
        eval_function recur scope p b args
          = match recur ((p.zip args).foldl
                (fun s pv => s.bind pv.1 pv.2) scope) b with
            | .ok _ result => .ok scope result
            | .err e => .err e
            | .panic => .panic
            | .out => .out)
    ∧ Lisp.eval 30 INITIAL_SCOPE
        (.List [.Symbol "list",
          .List [.Symbol "defn!", .Symbol "f", .List [.Symbol "a"],
            .List [.Symbol "def!", .Symbol "y", .Symbol "a"]],
          .List [.Symbol "f", .Number 5]])
        = .ok (((INITIAL_SCOPE.with_context "defn!").bind "f"
              (.Function ["a"]
                (.List [.Symbol "def!", .Symbol "y", .Symbol "a"])
                [])).with_context "f")
            (.List [.Void, .Void])
    ∧ ((((INITIAL_SCOPE.with_context "defn!").bind "f"
          (.Function ["a"] (.List [.Symbol "def!", .Symbol "y", .Symbol "a"])
            [])).with_context "f")).get "y" = none
    ∧ Lisp.eval 5
        ((((INITIAL_SCOPE.with_context "defn!").bind "f"
          (.Function ["a"] (.List [.Symbol "def!", .Symbol "y", .Symbol "a"])
            [])).with_context "f")) (.Symbol "y")
        = .err (.UnknownIdentifier "y") := by
  refine ⟨fun recur scope p b args h => ?_, rfl, rfl, rfl⟩
  unfold eval_function
  rw [if_neg (Nat.not_lt.mpr h)]

/-- Witness for C2: the saturated branch at a concrete input (extra
argument included), returning the original scope. -/
theorem claim2_call_scope_isolation_witness :
    eval_function
        (fun _ _ => (Res.ok (Scope.empty "r") LispVal.Void : Res LispVal))
        (Scope.empty "w") ["x"] .Void [.Number 1, .Number 2]
      = .ok (Scope.empty "w") .Void :=
  claim2_call_scope_isolation.1
    (fun _ _ => .ok (Scope.empty "r") .Void) (Scope.empty "w") ["x"] .Void
    [.Number 1, .Number 2] (by decide)

/-- Claim C3 (counterexample): `def!` does *not* evaluate its value
argument: `(def! x (+ 1 2))` binds `x` to the raw list `(+ 1 2)`, not to
`Number 3`. -/
theorem claim3_counterexample :
    Lisp.eval 20 INITIAL_SCOPE
        (.List [.Symbol "def!", .Symbol "x",
          .List [.Symbol "+", .Number 1, .Number 2]])
      = .ok ((INITIAL_SCOPE.with_context "def!").bind "x"
          (.List [.Symbol "+", .Number 1, .Number 2])) .Void
    ∧ (((INITIAL_SCOPE.with_context "def!").bind "x"
          (.List [.Symbol "+", .Number 1, .Number 2]))).get "x"
      = some (.List [.Symbol "+", .Number 1, .Number 2]) :=
  ⟨rfl, rfl⟩

/-- Claim C3 (amended): evaluating `(def! n e)` binds the *unevaluated*
expression `e` under `n` and returns Unit together with the scope
extended by that raw binding (and its context stamped `def!`). -/
theorem claim3_def_binds_raw :
    ∀ (fuel : Nat) (scope : Scope) (n : String) (e : LispVal),
    Lisp.eval (fuel + 1) scope (.List [.Symbol "def!", .Symbol n, e])
      = .ok ((scope.with_context "def!").bind n e) .Void :=
  fun _ _ _ _ => rfl

/-- Witness for C3: the amended statement at a concrete binding. -/
theorem claim3_def_binds_raw_witness :
    Lisp.eval 1 (Scope.empty "w")
        (.List [.Symbol "def!", .Symbol "z", .Boolean true])
      = .ok (((Scope.empty "w").with_context "def!").bind "z" (.Boolean true))
          .Void :=
  claim3_def_binds_raw 0 (Scope.empty "w") "z" (.Boolean true)

/-- Claim C4: for a non-macro symbol head, the tail is evaluated strictly
left to right with the scope threaded — the scope produced by element *i*
is the input scope of element *i+1* — so `(list (def! x 10) (+ x 2))`
evaluates to the sequence `(Unit, 12)` and `x` stays bound to `10` in the
returned scope. -/
theorem claim4_threading :
    (∀ (recur : Recur) (scope s1 : Scope) (v r : LispVal)
        (rest : List LispVal), recur scope v = .ok s1 r →
        eval_tail recur scope (v :: rest)
          = match eval_tail recur s1 rest with
            | .ok s2 acc => .ok s2 (r :: acc)
            | .err e => .err e
            | .panic => .panic
            | .out => .out)
    ∧ Lisp.eval 30 INITIAL_SCOPE
        (.List [.Symbol "list",
          .List [.Symbol "def!", .Symbol "x", .Number 10],
          .List [.Symbol "+", .Symbol "x", .Number 2]])
        = .ok (((INITIAL_SCOPE.with_context "def!").bind "x"
              (.Number 10)).with_context "+")
            (.List [.Void, .Number 12])
    ∧ ((((INITIAL_SCOPE.with_context "def!").bind "x"
          (.Number 10)).with_context "+")).get "x" = some (.Number 10) := by
  refine ⟨fun recur scope s1 v r rest h => ?_, rfl, rfl⟩
  have e1 : eval_tail recur scope (v :: rest)
      = match recur scope v with
        | .ok s r =>
          match eval_tail recur s rest with
          | .ok s2 acc => .ok s2 (r :: acc)
          | .err e => .err e
          | .panic => .panic
          | .out => .out
        | .err e => .err e
        | .panic => .panic
        | .out => .out := rfl
  rw [e1, h]

/-- Witness for C4: one threading step at a concrete evaluator. -/
theorem claim4_threading_witness :
    eval_tail
        (fun _ _ => (Res.ok (Scope.empty "s") LispVal.Void : Res LispVal))
        (Scope.empty "q") [.Number 1]
      = .ok (Scope.empty "s") [.Void] :=
  claim4_threading.1 (fun _ _ => .ok (Scope.empty "s") .Void)
    (Scope.empty "q") (Scope.empty "s") (.Number 1) .Void [] rfl

/-- Claim C5 (counterexample): when the head of a form is already a
`Function` value, the tail is *not* evaluated before application: the
identity function applied to the expression `(+ 1 2)` returns the raw
list `(+ 1 2)`, although that same tail expression evaluates to
`Number 3` under the very scope the claim prescribes. -/
theorem claim5_counterexample :
    Lisp.eval 20 INITIAL_SCOPE
        (.List [.Function ["a"] (.Symbol "a") [],
          .List [.Symbol "+", .Number 1, .Number 2]])
      = .ok (INITIAL_SCOPE.with_context "anonymous")
          (.List [.Symbol "+", .Number 1, .Number 2])
    ∧ Lisp.eval 20 (INITIAL_SCOPE.with_context "anonymous")
        (.List [.Symbol "+", .Number 1, .Number 2])
      = .ok ((INITIAL_SCOPE.with_context "anonymous").with_context "+")
          (.Number 3) :=
  ⟨rfl, rfl⟩

/-- Claim C5 (amended): for a `Function`-headed form the scope's context
is set to `anonymous` and the `Function` is applied to its applied values
concatenated with the *raw, unevaluated* tail elements. -/
theorem claim5_raw_tail_application :
    ∀ (fuel : Nat) (scope : Scope) (p : List String) (b : LispVal)
      (a tl : List LispVal),
    Lisp.eval (fuel + 1) scope (.List (.Function p b a :: tl))
      = eval_function (fun s e => Lisp.eval fuel s e)
          (scope.with_context "anonymous") p b (a ++ tl) :=
  fun _ _ _ _ _ _ => rfl

/-- Witness for C5: the amended statement at a concrete input. -/
theorem claim5_raw_tail_application_witness :
    Lisp.eval 1 (Scope.empty "w") (.List [.Function [] (.Number 3) []])
      = eval_function (fun s e => Lisp.eval 0 s e)
          ((Scope.empty "w").with_context "anonymous") [] (.Number 3) [] :=
  claim5_raw_tail_application 0 (Scope.empty "w") [] (.Number 3) [] []

/-- Claim C6 (counterexample): `(fn! () 5)` evaluates to a `Function`
value with `parameters = []` and `applied = []`, i.e. a Function escapes
to the caller with `applied.len() = parameters.len() = 0`, violating the
claimed strict inequality. -/
theorem claim6_counterexample :
    Lisp.eval 20 INITIAL_SCOPE (.List [.Symbol "fn!", .List [], .Number 5])
      = .ok (INITIAL_SCOPE.with_context "fn!")
          (.Function [] (.Number 5) []) :=
  rfl

/-- Claim C6 (amended): every `Function` produced by the two currying
branches satisfies `applied.len() < parameters.len()` — the
under-saturated `eval_function` branch returns `Function p b args` with
`args.length < p.length`, and an under-saturated native's synthetic
wrapper `to_function` has exactly `required` generated parameters — but
the invariant is not global: `fn!` with an empty parameter list escapes
with `applied.len() = parameters.len() = 0`
(see the counterexample). -/
theorem claim6_curry_invariant :
    (∀ (recur : Recur) (scope : Scope) (p : List String) (b : LispVal)
        (args : List LispVal), args.length < p.length →
        eval_function recur scope p b args = .ok scope (.Function p b args)
          ∧ args.length < p.length)
    ∧ (∀ (required : Nat) (name : String) (applied : List LispVal),
        applied.length < required →
        ∃ params body,
          to_function required name applied = .Function params body applied
            ∧ applied.length < params.length) := by
  constructor
  · intro recur scope p b args h
    refine ⟨?_, h⟩
    unfold eval_function
    rw [if_pos h]
  · intro required name applied h
    refine ⟨(List.range required).map (fun n => "a" ++ toString n), _, rfl, ?_⟩
    simpa using h

/-- Witness for C6: both currying branches at concrete under-saturated
inputs. -/
theorem claim6_curry_invariant_witness :
    (eval_function (fun _ _ => (Res.out : Res LispVal)) (Scope.empty "w")
        ["x"] .Void []
      = .ok (Scope.empty "w") (.Function ["x"] .Void []))
    ∧ ∃ params body,
        to_function 2 "+" [.Number 3] = .Function params body [.Number 3]
          ∧ [LispVal.Number 3].length < params.length :=
  ⟨(claim6_curry_invariant.1 _ _ _ _ _ (by decide)).1,
    claim6_curry_invariant.2 2 "+" [.Number 3] (by decide)⟩

/-- Claim C7: `( + 1 "a")` fails with `InvalidArgumentType` carrying
expected kind Number, actual kind String (Text) and position 1;
`(undefined_name)` fails with `UnknownIdentifier "undefined_name"`; and
`(1 2 3)` fails with `InvalidFunctionCall`. -/
theorem claim7_error_surfacing :
    Lisp.eval 20 INITIAL_SCOPE (.List [.Symbol "+", .Number 1, .String "a"])
      = .err (.InvalidArgumentType "+" .Number .String 1)
    ∧ Lisp.eval 20 INITIAL_SCOPE (.List [.Symbol "undefined_name"])
      = .err (.UnknownIdentifier "undefined_name")
    ∧ Lisp.eval 20 INITIAL_SCOPE (.List [.Number 1, .Number 2, .Number 3])
      = .err (.InvalidFunctionCall [.Number 1, .Number 2, .Number 3]) :=
  ⟨rfl, rfl, rfl⟩

/-- Claim C8: `concat` polymorphism — sequence+sequence concatenates,
sequence+scalar appends, scalar+sequence prepends, scalar+scalar builds a
2-element sequence; the `concat` native evaluates its two argument values
(threading the scope) and combines the results with `LispVal.concat`; the
four concrete instances of the claim hold, as does a full evaluation of a
`concat` call on two sequences. -/
theorem claim8_concat_polymorphism :
    (∀ l r : List LispVal,
      (LispVal.List l).concat (.List r) = .List (l ++ r))
    ∧ (∀ (l : List LispVal) (v : LispVal), v.to_type ≠ LispType.List →
        (LispVal.List l).concat v = .List (l ++ [v]))
    ∧ (∀ (v : LispVal) (r : List LispVal), v.to_type ≠ LispType.List →
        LispVal.concat v (.List r) = .List (v :: r))
    ∧ (∀ v w : LispVal, v.to_type ≠ LispType.List →
        w.to_type ≠ LispType.List → LispVal.concat v w = .List [v, w])
    ∧ (∀ (recur : Recur) (scope s1 s2 : Scope) (a b left right : LispVal),
        recur scope a = .ok s1 left → recur s1 b = .ok s2 right →
        eval_concat recur scope [a, b] = .ok s2 (left.concat right))
    ∧ (LispVal.List [.Number 1, .Number 2]).concat (.List [.Number 3])
        = .List [.Number 1, .Number 2, .Number 3]
    ∧ (LispVal.List [.Number 1]).concat (.Number 2)
        = .List [.Number 1, .Number 2]
    ∧ LispVal.concat (.Number 1) (.List [.Number 2])
        = .List [.Number 1, .Number 2]
    ∧ LispVal.concat (.Number 1) (.Number 2) = .List [.Number 1, .Number 2]
    ∧ Lisp.eval 20 INITIAL_SCOPE
        (.List [.Symbol "concat",
          .Unevaluated (.List [.Symbol "list", .Number 1, .Number 2]),
          .Unevaluated (.List [.Symbol "list", .Number 3])])
        = .ok (INITIAL_SCOPE.with_context "list")
            (.List [.Number 1, .Number 2, .Number 3]) := by
  refine ⟨fun l r => rfl, ?_, ?_, ?_, ?_, rfl, rfl, rfl, rfl, rfl⟩
  · intro l v h
    cases v <;> first | rfl | exact absurd rfl h
  · intro v r h
    cases v <;> first | rfl | exact absurd rfl h
  · intro v w hv hw
    cases v <;> first
      | exact absurd rfl hv
      | (cases w <;> first | rfl | exact absurd rfl hw)
  · intro recur scope s1 s2 a b left right h1 h2
    simp only [eval_concat, List.get?, h1, h2]

/-- Witness for C8: the scalar arms and the native evaluation at concrete
inputs. -/
theorem claim8_concat_polymorphism_witness :
    ((LispVal.List [.Number 9]).concat (.Boolean true)
        = .List [.Number 9, .Boolean true])
    ∧ LispVal.concat (.Boolean true) (.Number 9)
        = .List [.Boolean true, .Number 9]
    ∧ eval_concat (fun s e => Lisp.eval 3 s e) INITIAL_SCOPE
          [.Number 1, .Number 2]
        = .ok INITIAL_SCOPE (.List [.Number 1, .Number 2]) :=
  ⟨claim8_concat_polymorphism.2.1 _ _ (by decide),
    claim8_concat_polymorphism.2.2.2.1 _ _ (by decide) (by decide),
    claim8_concat_polymorphism.2.2.2.2.1 _ _ _ _ _ _ _ _ rfl rfl⟩

/-- Claim C9: division by zero, modulo by zero, `head` of an empty
sequence and `tail` of an empty sequence all abort the process (modelled
here by the dedicated `Res.panic` outcome, distinct from every
`Res.err`): the evaluator is not total on these inputs and no `EvalError`
is produced. -/
theorem claim9_native_faults :
    Lisp.eval 20 INITIAL_SCOPE (.List [.Symbol "/", .Number 1, .Number 0])
      = .panic
    ∧ Lisp.eval 20 INITIAL_SCOPE (.List [.Symbol "%", .Number 1, .Number 0])
      = .panic
    ∧ Lisp.eval 20 INITIAL_SCOPE (.List [.Symbol "head", .List [.Symbol "list"]])
      = .panic
    ∧ Lisp.eval 20 INITIAL_SCOPE (.List [.Symbol "tail", .List [.Symbol "list"]])
      = .panic :=
  ⟨rfl, rfl, rfl, rfl⟩

/-- Claim C10: supplying more arguments than parameters does not fail:
`eval_function` behaves exactly as if the surplus trailing arguments had
been dropped (the `zip` binds each parameter, in order, to the
corresponding argument and ignores the rest), `eval_op2`-style natives
read only their first two arguments, and concretely `(+ 1 2 3)` yields
`Number 3` while a 1-parameter user function applied to two arguments
returns its first argument's value. -/
theorem claim10_extra_arguments_ignored :
    (∀ (recur : Recur) (scope : Scope) (p : List String) (b : LispVal)
        (args : List LispVal), p.length ≤ args.length →
        eval_function recur scope p b args
          = eval_function recur scope p b (args.take p.length))
    ∧ (∀ {A B : Type} (c1 : LispVal → Except LispValUnwrapError A)
        (c2 : LispVal → Except LispValUnwrapError B)
        (operation : A → B → Option LispVal) (scope : Scope)
        (values : List LispVal), 2 ≤ values.length →
        eval_op2 c1 c2 operation scope values
          = eval_op2 c1 c2 operation scope (values.take 2))
    ∧ Lisp.eval 20 INITIAL_SCOPE
        (.List [.Symbol "+", .Number 1, .Number 2, .Number 3])
        = .ok (INITIAL_SCOPE.with_context "+") (.Number 3)
    ∧ Lisp.eval 30 INITIAL_SCOPE
        (.List [.Symbol "list",
          .List [.Symbol "defn!", .Symbol "f", .List [.Symbol "a"],
            .Symbol "a"],
          .List [.Symbol "f", .Number 1, .Number 2]])
        = .ok (((INITIAL_SCOPE.with_context "defn!").bind "f"
              (.Function ["a"] (.Symbol "a") [])).with_context "f")
            (.List [.Void, .Number 1]) := by
  refine ⟨?_, ?_, rfl, rfl⟩
  · intro recur scope p b args h
    unfold eval_function
    rw [if_neg (Nat.not_lt.mpr h),
      if_neg (by
        simp only [List.length_take]
        omega)]
    rw [zip_take_len]
  · intro A B c1 c2 operation scope values h
    match values, h with
    | v0 :: v1 :: rest, _ => rfl

/-- Witness for C10: both truncation statements at concrete inputs with a
surplus argument. -/
theorem claim10_extra_arguments_ignored_witness :
    (eval_function (fun _ _ => (Res.out : Res LispVal)) (Scope.empty "w")
        ["x"] .Void [.Number 1, .Number 2]
      = eval_function (fun _ _ => (Res.out : Res LispVal)) (Scope.empty "w")
          ["x"] .Void [.Number 1])
    ∧ eval_op2 tryIntoInt tryIntoInt
          (fun a b => some (.Number (a + b))) (Scope.empty "w")
          [.Number 1, .Number 2, .Number 3]
        = eval_op2 tryIntoInt tryIntoInt
            (fun a b => some (.Number (a + b))) (Scope.empty "w")
            [.Number 1, .Number 2] :=
  ⟨claim10_extra_arguments_ignored.1 _ _ _ _ _ (by decide),
    claim10_extra_arguments_ignored.2.1 _ _ _ _ _ (by decide)⟩

end Lisp
